import Mathlib

/-!
Verification of the local authentication/session-management core of the
College-Event-Manager repository.

The embedding follows the JavaScript source closely:
  * `src/utils/validation.js` — `validateStudentForm`, `validateAdminForm`;
  * `src/context/UserContext.js` — the `UserProvider` state (`currentUser`,
    `isAuthenticated`, `loading`), the operations `signIn`, `signOut`,
    `updateProfile`, the initial restore effect, and the derived queries
    `isAdmin`, `isStudent`, `getDisplayName`.

JavaScript dynamic values are modelled by an explicit `JSVal` type so that
truthiness, strict equality (`===`), and the difference between `null`,
`undefined`, `false`, `0` and `""` are all faithfully represented.  Profile
objects carry one `Option JSVal` per relevant key: `none` means the key is
absent from the object, `some v` means the key is present with value `v`.

The persistence adapter (`src/services/storageService.js`) is not part of the
sources; per the specification it is an asynchronous key-value slot whose read
errors surface as `null` and whose write errors are swallowed.  It is modelled
by a `stored : Option JSObj` component of the state together with explicit
`saveOk` / `readOk` parameters describing whether the adapter call succeeded.
-/

namespace CampusHub

/-- JavaScript primitive values that can occur in the session core: `null`,
`undefined`, booleans, numbers (modelled as rationals) and strings. -/
inductive JSVal where
  | vnull
  | vundefined
  | vbool (b : Bool)
  | vnum (q : ℚ)
  | vstr (s : String)
  deriving DecidableEq, Repr

/-- JavaScript truthiness of a value (`NaN` does not occur in this model). -/
def truthy : JSVal → Bool
  | .vnull => false
  | .vundefined => false
  | .vbool b => b
  | .vnum q => q != 0
  | .vstr s => s != ""

/-- Whether `typeof v === 'string'`. -/
def isStr : JSVal → Bool
  | .vstr _ => true
  | _ => false

/-- Whether `typeof v === 'number'`. -/
def isNum : JSVal → Bool
  | .vnum _ => true
  | _ => false

/-- The numeric content of a value; only meaningful when `isNum` holds. -/
def numVal : JSVal → ℚ
  | .vnum q => q
  | _ => 0

/-- The string content of a value; only meaningful when `isStr` holds. -/
def strVal : JSVal → String
  | .vstr s => s
  | _ => ""

/-- The semantics of `String.prototype.trim`: drop leading and trailing
whitespace (written structurally over the character list so that concrete
instances evaluate). -/
def jsTrim (s : String) : String :=
  String.mk
    (((s.data.dropWhile Char.isWhitespace).reverse.dropWhile
        Char.isWhitespace).reverse)

/-- A user/profile object as it flows through the session core.  Each field is
`none` when the key is absent from the JavaScript object and `some v` when the
key is present with value `v`. -/
structure JSObj where
  id : Option JSVal := none
  name : Option JSVal := none
  isAdmin : Option JSVal := none
  rollNumber : Option JSVal := none
  branch : Option JSVal := none
  year : Option JSVal := none
  deriving DecidableEq, Repr

/-- JavaScript property access: a missing key reads as `undefined`. -/
def getF : Option JSVal → JSVal
  | some v => v
  | none => .vundefined

/-- The error object produced by the validators: one optional message per
field key, `none` when the key is absent from `errors`. -/
structure ErrMap where
  name : Option String := none
  id : Option String := none
  isAdmin : Option String := none
  rollNumber : Option String := none
  branch : Option String := none
  year : Option String := none
  deriving DecidableEq, Repr

/-- Whether `Object.keys(errors).length === 0`. -/
def ErrMap.isEmpty (e : ErrMap) : Bool :=
  e.name.isNone && e.id.isNone && e.isAdmin.isNone &&
    e.rollNumber.isNone && e.branch.isNone && e.year.isNone

/-- Result shape of the validators: `{ isValid, errors }`. -/
structure ValidationResult where
  isValid : Bool
  errors : ErrMap
  deriving DecidableEq, Repr

/-- The shared name rule of both validators:
`!data.name || typeof data.name !== 'string' || data.name.trim().length === 0`
gives "Name is required", else a trimmed length below 2 gives the
length message. -/
def nameError (data : JSObj) : Option String :=
  let n := getF data.name
  if !truthy n || !isStr n || (jsTrim (strVal n)).length == 0 then
    some "Name is required"
  else if (jsTrim (strVal n)).length < 2 then
    some "Name must be at least 2 characters"
  else
    none

/-- Embedding of `validateStudentForm` from `src/utils/validation.js`. -/
def validateStudentForm (data : JSObj) : ValidationResult :=
  let roll := getF data.rollNumber
  let br := getF data.branch
  let yr := getF data.year
  let errors : ErrMap :=
    { name := nameError data
      rollNumber :=
        if truthy roll && !isStr roll then some "Roll number must be a string"
        else none
      branch :=
        if truthy br && !isStr br then some "Branch must be a string"
        else none
      year :=
        if truthy yr &&
            (!isNum yr || decide (numVal yr < 1) || decide (numVal yr > 4)) then
          some "Year must be between 1 and 4"
        else none }
  { isValid := errors.isEmpty, errors := errors }

/-- Embedding of `validateAdminForm` from `src/utils/validation.js`. -/
def validateAdminForm (data : JSObj) : ValidationResult :=
  let i := getF data.id
  let errors : ErrMap :=
    { name := nameError data
      id :=
        if !truthy i || !isStr i || (jsTrim (strVal i)).length == 0 then
          some "ID is required"
        else none
      isAdmin :=
        if getF data.isAdmin != JSVal.vbool true then
          some "Admin flag must be true"
        else none }
  { isValid := errors.isEmpty, errors := errors }

/-- State of the `UserProvider` session store, plus the durable slot held by
the persistence adapter under the key `CAMPUSHUB_CURRENT_USER` (`none` models
both "no record" and an explicitly stored `null`). -/
structure UserState where
  currentUser : Option JSObj
  isAuthenticated : Bool
  loading : Bool
  stored : Option JSObj
  deriving DecidableEq, Repr

/-- The state at process start, before the restore effect runs: no user,
not authenticated, `loading = true`; the durable slot survives from the
previous process. -/
def initState (stored : Option JSObj) : UserState :=
  { currentUser := none, isAuthenticated := false, loading := true
    stored := stored }

/-- The JavaScript value resolved by a mutating operation: either a plain
boolean or an object `{ success, message?, errors? }`. -/
inductive RetVal where
  | rbool (b : Bool)
  | robj (success : Bool) (message : Option String) (errors : Option ErrMap)
  deriving DecidableEq, Repr

/-- The values of a student error object in insertion order
(`Object.values(result.errors)`). -/
def ErrMap.studentMessages (e : ErrMap) : List String :=
  [e.name, e.rollNumber, e.branch, e.year].filterMap (fun m => m)

/-- The `Object.values(result.errors).join(', ')` message string. -/
def joinErrors (l : List String) : String :=
  String.intercalate ", " l

/-- The id-generation step of `signIn`: `if (!userObj.id) userObj.id = ...`.
`gen` stands for the concrete `user_${Date.now()}_${random}` string. -/
def withGeneratedId (gen : String) (userObj : JSObj) : JSObj :=
  if truthy (getF userObj.id) then userObj
  else { userObj with id := some (.vstr gen) }

/-- The tail of `signIn` after validation: generate an id if needed, set
`currentUser` and `isAuthenticated`, then `await saveKey(...)` (a failed save
leaves the durable slot unchanged; the adapter swallows the error). -/
def signInCommit (gen : String) (saveOk : Bool) (userObj : JSObj)
    (s : UserState) : RetVal × UserState :=
  let u := withGeneratedId gen userObj
  (.robj true none none,
    { s with currentUser := some u, isAuthenticated := true
             stored := if saveOk then some u else s.stored })

/-- Embedding of `signIn` from `src/context/UserContext.js`: student
validation runs only when `userObj.isAdmin` is falsy; a truthy `isAdmin`
skips validation entirely. -/
def signIn (gen : String) (saveOk : Bool) (userObj : JSObj)
    (s : UserState) : RetVal × UserState :=
  if !truthy (getF userObj.isAdmin) then
    let result := validateStudentForm userObj
    if !result.isValid then
      (.robj false (some (joinErrors result.errors.studentMessages))
        (some result.errors), s)
    else
      signInCommit gen saveOk userObj s
  else
    signInCommit gen saveOk userObj s

/-- Embedding of `signOut`: clear the user, clear the flag, store `null`
(`saveOk = false` models a failed adapter write), resolve `{ success: true }`. -/
def signOut (saveOk : Bool) (s : UserState) : RetVal × UserState :=
  (.robj true none none,
    { s with currentUser := none, isAuthenticated := false
             stored := if saveOk then none else s.stored })

/-- The shallow overlay of one object key: a key present in `new` replaces the
base key, an absent key keeps the base (`{...base, ...new}`). -/
def overlay (base new : Option JSVal) : Option JSVal :=
  match new with
  | some v => some v
  | none => base

/-- The spread merge `{ ...currentUser, ...fields }` of `updateProfile`. -/
def mergeObj (p f : JSObj) : JSObj :=
  { id := overlay p.id f.id
    name := overlay p.name f.name
    isAdmin := overlay p.isAdmin f.isAdmin
    rollNumber := overlay p.rollNumber f.rollNumber
    branch := overlay p.branch f.branch
    year := overlay p.year f.year }

/-- Embedding of `updateProfile`: fail fast when no user is signed in, merge,
validate the merged object only when its `isAdmin` is falsy, then commit and
persist. -/
def updateProfile (saveOk : Bool) (fields : JSObj)
    (s : UserState) : RetVal × UserState :=
  match s.currentUser with
  | none => (.robj false (some "No user signed in") none, s)
  | some cu =>
    let updated := mergeObj cu fields
    if !truthy (getF updated.isAdmin) then
      let result := validateStudentForm updated
      if !result.isValid then
        (.robj false (some (joinErrors result.errors.studentMessages))
          (some result.errors), s)
      else
        (.robj true none none,
          { s with currentUser := some updated
                   stored := if saveOk then some updated else s.stored })
    else
      (.robj true none none,
        { s with currentUser := some updated
                 stored := if saveOk then some updated else s.stored })

/-- Embedding of the initial restore effect of `UserProvider` (the spec's
`initialize()`): read the persisted user (`readOk = false` models an adapter
read error, surfaced as `null`), authenticate when it is truthy, and set
`loading = false` in every case. -/
def restoreSession (readOk : Bool) (s : UserState) : UserState :=
  let user := if readOk then s.stored else none
  match user with
  | some u =>
    { s with currentUser := some u, isAuthenticated := true, loading := false }
  | none => { s with loading := false }

/-- Embedding of the query `isAdmin`: `currentUser?.isAdmin === true`. -/
def isAdmin (s : UserState) : Bool :=
  match s.currentUser with
  | none => false
  | some u => getF u.isAdmin == JSVal.vbool true

/-- Embedding of the query `isStudent`: `currentUser && !currentUser.isAdmin`.
The result is the JavaScript value of that expression: `null` when no user is
signed in, a boolean otherwise. -/
def isStudent (s : UserState) : JSVal :=
  match s.currentUser with
  | none => .vnull
  | some u => .vbool (!truthy (getF u.isAdmin))

/-- Embedding of the query `getDisplayName`: `currentUser?.name || 'Guest'`. -/
def getDisplayName (s : UserState) : JSVal :=
  let n := match s.currentUser with
    | none => JSVal.vundefined
    | some u => getF u.name
  if truthy n then n else .vstr "Guest"

/-- The invariant coupling the authenticated flag to the user slot. -/
def authInvariant (s : UserState) : Prop :=
  s.isAuthenticated = true ↔ s.currentUser ≠ none

/-- The role-dispatch validity of a candidate as the specification describes
it: admin validation for a truthy `isAdmin`, student validation otherwise. -/
def roleValid (c : JSObj) : Bool :=
  if truthy (getF c.isAdmin) then (validateAdminForm c).isValid
  else (validateStudentForm c).isValid

/-- A well-formed student candidate used as a concrete test input. -/
def joe : JSObj :=
  { name := some (.vstr "Jo"), isAdmin := some (.vbool false) }

/-- An admin candidate with an empty name and no id: rejected by
`validateAdminForm`, yet accepted by `signIn`. -/
def badAdmin : JSObj :=
  { name := some (.vstr ""), isAdmin := some (.vbool true) }

/-- An admin candidate missing the required `name` field entirely. -/
def noNameAdmin : JSObj :=
  { isAdmin := some (.vbool true) }

/-- An admin user already signed in, used as a concrete current state. -/
def adminUser : JSObj :=
  { id := some (.vstr "u1"), name := some (.vstr "Admin")
    isAdmin := some (.vbool true) }

/-- A partial update that blanks the name field. -/
def blankNameFields : JSObj :=
  { name := some (.vstr "") }

/-- A student candidate whose `year` field is present with value `0`. -/
def zeroYearStudent : JSObj :=
  { name := some (.vstr "Jo"), year := some (.vnum 0) }

/-- A partial update setting only the branch, used as a concrete input. -/
def branchFields : JSObj :=
  { branch := some (.vstr "CS") }

/-- A session state with the student `joe` signed in and persisted. -/
def joeState : UserState :=
  { currentUser := some joe, isAuthenticated := true, loading := false
    stored := some joe }

/-- A session state with `adminUser` signed in and persisted. -/
def adminState : UserState :=
  { currentUser := some adminUser, isAuthenticated := true, loading := false
    stored := some adminUser }

lemma overlay_overlay (b n : Option JSVal) :
    overlay (overlay b n) n = overlay b n := by
  cases n <;> rfl

lemma mergeObj_mergeObj (p f : JSObj) :
    mergeObj (mergeObj p f) f = mergeObj p f := by
  simp [mergeObj, overlay_overlay]

lemma signIn_valid_eq (g : String) (ok : Bool) (c : JSObj) (s : UserState)
    (h : roleValid c = true) :
    signIn g ok c s =
      (RetVal.robj true none none,
        { s with currentUser := some (withGeneratedId g c)
                 isAuthenticated := true
                 stored := if ok then some (withGeneratedId g c)
                   else s.stored }) := by
  by_cases ha : truthy (getF c.isAdmin) = true
  · simp [signIn, signInCommit, ha]
  · simp only [Bool.not_eq_true] at ha
    unfold roleValid at h
    rw [ha] at h
    simp at h
    simp [signIn, signInCommit, ha, h]

lemma updateProfile_valid_eq (f p : JSObj) (s : UserState)
    (hcu : s.currentUser = some p)
    (hv : truthy (getF (mergeObj p f).isAdmin) = true ∨
      (validateStudentForm (mergeObj p f)).isValid = true) :
    updateProfile true f s =
      (RetVal.robj true none none,
        { s with currentUser := some (mergeObj p f)
                 stored := some (mergeObj p f) }) := by
  by_cases ha : truthy (getF (mergeObj p f).isAdmin) = true
  · simp [updateProfile, hcu, ha]
  · have hval : (validateStudentForm (mergeObj p f)).isValid = true :=
      hv.resolve_left ha
    simp only [Bool.not_eq_true] at ha
    simp [updateProfile, hcu, ha, hval]

/-- Claim C1 (code bug): `signIn` never runs `validateAdminForm`.  The admin
candidate `badAdmin` (empty name, no id) is rejected by `validateAdminForm`,
yet `signIn` accepts it, changes the state, and persists it; likewise
`updateProfile` accepts a merged admin profile that `validateAdminForm`
rejects. -/
theorem c1_admin_validation_skipped :
    (validateAdminForm badAdmin).isValid = false ∧
    (signIn "user_1" true badAdmin (initState none)).1 =
      RetVal.robj true none none ∧
    (signIn "user_1" true badAdmin (initState none)).2.currentUser =
      some (withGeneratedId "user_1" badAdmin) ∧
    (signIn "user_1" true badAdmin (initState none)).2.isAuthenticated =
      true ∧
    (validateAdminForm (mergeObj adminUser blankNameFields)).isValid = false ∧
    (updateProfile true blankNameFields adminState).1 =
      RetVal.robj true none none := by
  decide

/-- Claim C2 (code bug): the admin candidate `noNameAdmin` fails the
required-name rule of its role validator, yet `signIn` returns
`success: true`, authenticates it, and writes it to the durable store. -/
theorem c2_invalid_admin_commits :
    (validateAdminForm noNameAdmin).errors.name = some "Name is required" ∧
    (validateAdminForm noNameAdmin).isValid = false ∧
    (signIn "user_1" true noNameAdmin (initState none)).1 =
      RetVal.robj true none none ∧
    (signIn "user_1" true noNameAdmin (initState none)).2.isAuthenticated =
      true ∧
    (signIn "user_1" true noNameAdmin (initState none)).2.stored =
      some (withGeneratedId "user_1" noNameAdmin) := by
  decide

/-- Claim C3, counterexample: `signOut` does not resolve to the plain boolean
`true`; it resolves to the object `{ success: true }`. -/
theorem c3_signOut_not_plain_boolean :
    (signOut true (initState none)).1 = RetVal.robj true none none ∧
    (signOut true (initState none)).1 ≠ RetVal.rbool true := by
  decide

/-- Claim C3 (amended): `signOut` resolves to the object `{ success: true }`
(not a plain boolean), unconditionally transitions to Unauthenticated from any
prior state, and is idempotent: a second call leaves the identical state. -/
theorem c3_signOut_amended (ok : Bool) (s : UserState) :
    (signOut ok s).1 = RetVal.robj true none none ∧
    (signOut ok s).2.currentUser = none ∧
    (signOut ok s).2.isAuthenticated = false ∧
    (signOut ok (signOut ok s).2).2 = (signOut ok s).2 := by
  cases ok <;> simp [signOut]

/-- Claim C4, counterexample: after `signIn` followed by `signOut`, the
session is Unauthenticated but `isStudent()` returns `null`, not the boolean
`false`. -/
theorem c4_isStudent_null_when_signed_out :
    (signOut true (signIn "g" true joe (initState none)).2).2.currentUser =
      none ∧
    isStudent (signOut true (signIn "g" true joe (initState none)).2).2 =
      JSVal.vnull ∧
    isStudent (signOut true (signIn "g" true joe (initState none)).2).2 ≠
      JSVal.vbool false := by
  decide

/-- Claim C4 (amended): whenever the session is Unauthenticated, `isAdmin()`
returns the boolean `false`, `getDisplayName()` returns `"Guest"`, and
`isStudent()` returns `null` — a falsy value, but not the boolean `false`. -/
theorem c4_unauthenticated_queries (s : UserState)
    (h : s.currentUser = none) :
    isAdmin s = false ∧ isStudent s = JSVal.vnull ∧
    getDisplayName s = JSVal.vstr "Guest" := by
  simp [isAdmin, isStudent, getDisplayName, truthy, h]

/-- Witness for `c4_unauthenticated_queries` at the initial state. -/
theorem c4_unauthenticated_queries_witness :
    isAdmin (initState none) = false ∧
    isStudent (initState none) = JSVal.vnull ∧
    getDisplayName (initState none) = JSVal.vstr "Guest" :=
  c4_unauthenticated_queries (initState none) rfl

/-- Claim C5, counterexample: `zeroYearStudent` has the `year` key present
with value `0`, and `0 < 1`, so the claim demands the year error; the code
reports no error (the truthiness test treats `0` as absent). -/
theorem c5_year_zero_unchecked :
    zeroYearStudent.year = some (JSVal.vnum 0) ∧
    ((0 : ℚ) < 1) ∧
    (validateStudentForm zeroYearStudent).errors.year = none ∧
    (validateStudentForm zeroYearStudent).isValid = true := by
  decide

/-- Claim C5 (amended): `validateStudentForm` reports "Year must be between 1
and 4" exactly when the `year` value is truthy (so `0`, `""`, `null`, `false`
and an absent key are all treated as not supplied) and is not a number, or is
a number below 1 or above 4; integrality beyond being a number is not
checked. -/
theorem c5_year_rule (d : JSObj) :
    (validateStudentForm d).errors.year =
        some "Year must be between 1 and 4" ↔
      truthy (getF d.year) = true ∧
        (isNum (getF d.year) = false ∨ numVal (getF d.year) < 1 ∨
          numVal (getF d.year) > 4) := by
  have hy : (validateStudentForm d).errors.year =
      if truthy (getF d.year) &&
          (!isNum (getF d.year) || decide (numVal (getF d.year) < 1) ||
            decide (numVal (getF d.year) > 4)) then
        some "Year must be between 1 and 4"
      else none := rfl
  have hiff : (truthy (getF d.year) &&
      (!isNum (getF d.year) || decide (numVal (getF d.year) < 1) ||
        decide (numVal (getF d.year) > 4))) = true ↔
      truthy (getF d.year) = true ∧
        (isNum (getF d.year) = false ∨ numVal (getF d.year) < 1 ∨
          numVal (getF d.year) > 4) := by
    simp [Bool.and_eq_true, Bool.or_eq_true, or_assoc]
  rw [hy]
  by_cases h : (truthy (getF d.year) &&
      (!isNum (getF d.year) || decide (numVal (getF d.year) < 1) ||
        decide (numVal (getF d.year) > 4))) = true
  · rw [if_pos h]
    exact iff_of_true rfl (hiff.mp h)
  · rw [if_neg h]
    exact iff_of_false (by simp) (fun hp => h (hiff.mpr hp))

/-- Claim C6: the initial restore reads the persisted slot once (a read error
is surfaced as `null`); it authenticates with the loaded profile exactly when
a value is present, otherwise remains Unauthenticated, and `loading` becomes
`false` in every case. -/
theorem c6_restore (st : Option JSObj) (readOk : Bool) :
    (restoreSession readOk (initState st)).loading = false ∧
    ((restoreSession readOk (initState st)).isAuthenticated = true ↔
      readOk = true ∧ st ≠ none) ∧
    (∀ u : JSObj, readOk = true → st = some u →
      (restoreSession readOk (initState st)).currentUser = some u) ∧
    (readOk = false ∨ st = none →
      (restoreSession readOk (initState st)).currentUser = none ∧
        (restoreSession readOk (initState st)).isAuthenticated = false) := by
  cases readOk <;> cases st <;> simp [restoreSession, initState]

/-- Witness for `c6_restore`: a stored profile is restored when the read
succeeds, and a failed read leaves the session Unauthenticated. -/
theorem c6_restore_witness :
    (restoreSession true (initState (some joe))).currentUser = some joe ∧
    (restoreSession false (initState (some joe))).currentUser = none :=
  ⟨(c6_restore (some joe) true).2.2.1 joe rfl rfl,
    ((c6_restore (some joe) false).2.2.2 (Or.inl rfl)).1⟩

/-- Claim C7: for a role-valid candidate, a successful `signIn` followed by a
fresh restore against the same durable slot yields an Authenticated session
holding the signed-in profile — the candidate itself when its id was truthy,
the candidate plus the generated id otherwise. -/
theorem c7_roundtrip (c : JSObj) (g : String) (s : UserState)
    (h : roleValid c = true) :
    (signIn g true c s).1 = RetVal.robj true none none ∧
    (restoreSession true
      (initState (signIn g true c s).2.stored)).isAuthenticated = true ∧
    (restoreSession true
      (initState (signIn g true c s).2.stored)).currentUser =
        some (withGeneratedId g c) ∧
    (truthy (getF c.id) = false →
      withGeneratedId g c = { c with id := some (.vstr g) }) ∧
    (truthy (getF c.id) = true → withGeneratedId g c = c) := by
  rw [signIn_valid_eq g true c s h]
  refine ⟨rfl, by simp [restoreSession, initState], by
    simp [restoreSession, initState], fun hid => ?_, fun hid => ?_⟩
  · simp [withGeneratedId, hid]
  · simp [withGeneratedId, hid]

/-- Witness for `c7_roundtrip` at the student `joe` with no id. -/
theorem c7_roundtrip_witness :
    (signIn "g" true joe (initState none)).1 = RetVal.robj true none none ∧
    (restoreSession true
      (initState (signIn "g" true joe (initState none)).2.stored)).currentUser =
        some (withGeneratedId "g" joe) ∧
    withGeneratedId "g" joe = { joe with id := some (.vstr "g") } :=
  ⟨(c7_roundtrip joe "g" (initState none) (by decide)).1,
    (c7_roundtrip joe "g" (initState none) (by decide)).2.2.1,
    (c7_roundtrip joe "g" (initState none) (by decide)).2.2.2.1 (by decide)⟩

/-- Claim C8: when the persistence write fails during `signIn` of a
role-valid candidate, the in-memory transition to Authenticated still stands,
the result is still `{ success: true }` with no errors, and the durable slot
is simply left unchanged. -/
theorem c8_save_failure_tolerated (c : JSObj) (g : String) (s : UserState)
    (h : roleValid c = true) :
    (signIn g false c s).1 = RetVal.robj true none none ∧
    (signIn g false c s).2.currentUser = some (withGeneratedId g c) ∧
    (signIn g false c s).2.isAuthenticated = true ∧
    (signIn g false c s).2.stored = s.stored := by
  rw [signIn_valid_eq g false c s h]
  exact ⟨rfl, rfl, rfl, rfl⟩

/-- Witness for `c8_save_failure_tolerated` at the student `joe`. -/
theorem c8_save_failure_tolerated_witness :
    (signIn "g" false joe (initState none)).1 = RetVal.robj true none none ∧
    (signIn "g" false joe (initState none)).2.isAuthenticated = true ∧
    (signIn "g" false joe (initState none)).2.stored = none :=
  ⟨(c8_save_failure_tolerated joe "g" (initState none) (by decide)).1,
    (c8_save_failure_tolerated joe "g" (initState none) (by decide)).2.2.1,
    (c8_save_failure_tolerated joe "g" (initState none) (by decide)).2.2.2⟩

/-- Claim C9: the coupling "authenticated flag is true iff the user slot is
non-null" is preserved by the restore effect, `signIn`, `signOut` and
`updateProfile`, from any state satisfying it and for any adapter outcome. -/
theorem c9_auth_coupling (s : UserState) (h : authInvariant s)
    (rOk ok : Bool) (g : String) (c f : JSObj) :
    authInvariant (restoreSession rOk s) ∧
    authInvariant (signIn g ok c s).2 ∧
    authInvariant (signOut ok s).2 ∧
    authInvariant (updateProfile ok f s).2 := by
  refine ⟨?_, ?_, ?_, ?_⟩
  · unfold restoreSession
    cases hu : (if rOk then s.stored else none) with
    | some u => simp [authInvariant]
    | none => simpa [authInvariant] using h
  · unfold signIn
    by_cases ha : (!truthy (getF c.isAdmin)) = true
    · by_cases hv : (!(validateStudentForm c).isValid) = true
      · simpa [ha, hv, authInvariant] using h
      · simp [ha, hv, authInvariant, signInCommit]
    · simp [ha, authInvariant, signInCommit]
  · simp [signOut, authInvariant]
  · unfold updateProfile
    cases hcu : s.currentUser with
    | none => simpa [authInvariant] using h
    | some cu =>
      have hauth : s.isAuthenticated = true := h.mpr (by simp [hcu])
      by_cases ha : (!truthy (getF (mergeObj cu f).isAdmin)) = true
      · by_cases hv : (!(validateStudentForm (mergeObj cu f)).isValid) = true
        · simpa [ha, hv, authInvariant, hcu] using h
        · simp [ha, hv, authInvariant, hauth]
      · simp [ha, authInvariant, hauth]

/-- Witness for `c9_auth_coupling` at the initial state. -/
theorem c9_auth_coupling_witness :
    authInvariant (signOut true (initState none)).2 :=
  (c9_auth_coupling (initState none) (by simp [authInvariant, initState])
    true true "g" joe joe).2.2.1

/-- Claim C10: for an Authenticated session whose merged candidate passes the
update validation, `updateProfile` applied twice with the same fields returns
success both times and leaves exactly the state (including the persisted
copy) of a single application, because the shallow overlay merge is
idempotent. -/
theorem c10_update_idempotent (p f : JSObj) (s : UserState)
    (hcu : s.currentUser = some p)
    (hv : truthy (getF (mergeObj p f).isAdmin) = true ∨
      (validateStudentForm (mergeObj p f)).isValid = true) :
    (updateProfile true f s).1 = RetVal.robj true none none ∧
    (updateProfile true f (updateProfile true f s).2).1 =
      RetVal.robj true none none ∧
    (updateProfile true f (updateProfile true f s).2).2 =
      (updateProfile true f s).2 := by
  have h1 := updateProfile_valid_eq f p s hcu hv
  have hv2 : truthy (getF (mergeObj (mergeObj p f) f).isAdmin) = true ∨
      (validateStudentForm (mergeObj (mergeObj p f) f)).isValid = true := by
    rw [mergeObj_mergeObj]; exact hv
  have h2 := updateProfile_valid_eq f (mergeObj p f)
    (updateProfile true f s).2 (by rw [h1]) hv2
  rw [mergeObj_mergeObj] at h2
  refine ⟨by rw [h1], by rw [h2], ?_⟩
  rw [h2, h1]

/-- Witness for `c10_update_idempotent`: updating `joe`'s branch twice leaves
the state of a single update. -/
theorem c10_update_idempotent_witness :
    (updateProfile true branchFields
        (updateProfile true branchFields joeState).2).2 =
      (updateProfile true branchFields joeState).2 :=
  (c10_update_idempotent joe branchFields joeState rfl
    (Or.inr (by decide))).2.2

end CampusHub
